import Mathlib

/-!
Shallow embedding of the Heart_disease_prediction frontend logic.

The repository is a React frontend; the parts embedded here are its pure
form-state / validation / derivation logic:

* `PatientForm` — the multi-step intake form
  (src/unnamed/part_001, and the earlier variant
  src/src/components/forms/PatientForm.tsx): the thirteen required clinical
  fields, the derived `missingRequired` list, the `nextStep`/`prevStep`
  navigation, and the submit handler `handleSubmit`.
* `DoctorLogin` — credential validation and success-response handling
  (src/src/pages/DoctorLogin.tsx).
* `DoctorDashboard` — the record list, the derived advisory string
  `aiSuggestion`, and the note-saving operation `saveNote`
  (src/src/pages/DoctorDashboard.tsx).

Conventions of the embedding:

* A JavaScript `number | ""` form value is `Option ℚ`: `none` stands for the
  empty string (and for `null`/`undefined`, which the source tests together
  with `""`); `some v` is a stored number.  All numeric literals appearing in
  the source (thresholds 240, 140, 2.0, 0.8) are exact in `ℚ`.
* Browser side effects (network requests, `alert`, `localStorage` writes,
  `navigate`) are reified as data: a handler returns a value describing the
  requests it issues, the messages it surfaces, and the storage/navigation
  operations it performs, alongside the successor component state.
* `JSON.stringify({username: u})` is abstracted to its payload `u`: the
  serialization wrapper carries no logic.
-/

namespace PatientForm

/-- The keys of the `FormData` record of the intake form, in source order
(the thirteen clinical fields plus the optional training label `target`). -/
inductive Field where
  | age | sex | cp | trestbps | chol | fbs | restecg
  | thalach | exang | oldpeak | slope | ca | thal | target
deriving DecidableEq

/-- The `FormData` state of the intake form: each field is either unset
(`none`, the source's `""`) or a number. -/
structure FormData where
  age : Option ℚ
  sex : Option ℚ
  cp : Option ℚ
  trestbps : Option ℚ
  chol : Option ℚ
  fbs : Option ℚ
  restecg : Option ℚ
  thalach : Option ℚ
  exang : Option ℚ
  oldpeak : Option ℚ
  slope : Option ℚ
  ca : Option ℚ
  thal : Option ℚ
  target : Option ℚ
deriving DecidableEq

/-- Field lookup, `formData[f]` of the source. -/
def getField (fd : FormData) : Field → Option ℚ
  | .age => fd.age
  | .sex => fd.sex
  | .cp => fd.cp
  | .trestbps => fd.trestbps
  | .chol => fd.chol
  | .fbs => fd.fbs
  | .restecg => fd.restecg
  | .thalach => fd.thalach
  | .exang => fd.exang
  | .oldpeak => fd.oldpeak
  | .slope => fd.slope
  | .ca => fd.ca
  | .thal => fd.thal
  | .target => fd.target

/-- The field names as the source spells them (used in the alert message). -/
def fieldName : Field → String
  | .age => "age"
  | .sex => "sex"
  | .cp => "cp"
  | .trestbps => "trestbps"
  | .chol => "chol"
  | .fbs => "fbs"
  | .restecg => "restecg"
  | .thalach => "thalach"
  | .exang => "exang"
  | .oldpeak => "oldpeak"
  | .slope => "slope"
  | .ca => "ca"
  | .thal => "thal"
  | .target => "target"

/-- Source `requiredFields` of src/unnamed/part_001 (lines 108–122): the thirteen
clinical fields, in source order; `target` is not among them. -/
def requiredFields : List Field :=
  [.age, .sex, .cp, .trestbps, .chol, .fbs, .restecg,
   .thalach, .exang, .oldpeak, .slope, .ca, .thal]

/-- Source `missingRequired` (src/unnamed/part_001, lines 124–126):
`requiredFields.filter((f) => formData[f] === "" || formData[f] === null ||
formData[f] === undefined)`.  All three emptiness cases collapse to `none`. -/
def missingRequired (fd : FormData) : List Field :=
  requiredFields.filter (fun f => (getField fd f).isNone)

/-- The JSON payload built in `handleSubmit` (lines 138–142): one entry per
required field, `Number(val)` for a set value and `null` for an empty one. -/
def payloadOf (fd : FormData) : List (Field × Option ℚ) :=
  requiredFields.map (fun f => (f, getField fd f))

/-- What a call of `handleSubmit` does before any response arrives: either it
alerts about missing fields and stops, or it issues the one `/predict`
request with the JSON payload. -/
inductive SubmitAction where
  | alertMissing (msg : String)
  | request (payload : List (Field × Option ℚ))
deriving DecidableEq

/-- The pre-network part of `handleSubmit` (src/unnamed/part_001,
lines 129–149): blocked with an alert naming the missing fields when
`missingRequired.length > 0`, otherwise a single request carrying the
payload. -/
def handleSubmit (fd : FormData) : SubmitAction :=
  if 0 < (missingRequired fd).length then
    .alertMissing ("Please fill required fields before submitting: "
      ++ String.intercalate ", " ((missingRequired fd).map fieldName))
  else
    .request (payloadOf fd)

/-- Whether a submit action issues the network call. -/
def issuesRequest : SubmitAction → Bool
  | .alertMissing _ => false
  | .request _ => true

/-- Source `totalSteps = 6` (src/unnamed/part_001, line 69). -/
def totalSteps : ℕ := 6

/-- Source `nextStep` (lines 95–99): advance only while `currentStep < totalSteps`. -/
def nextStep (s : ℕ) : ℕ :=
  if s < totalSteps then s + 1 else s

/-- Source `prevStep` (lines 101–105): retreat only while `currentStep > 1`. -/
def prevStep (s : ℕ) : ℕ :=
  if 1 < s then s - 1 else s

/-- A user navigation event: clicking Next or Previous. -/
inductive StepOp where
  | next | prev
deriving DecidableEq

/-- The step reached after a sequence of navigation events. -/
def applyOps : List StepOp → ℕ → ℕ
  | [], s => s
  | op :: rest, s =>
    applyOps rest (match op with | .next => nextStep s | .prev => prevStep s)

/-- The response of the external `/predict` endpoint
(src/unnamed/part_001, line 159): prediction, optional probability, model
name, optional storage id. -/
structure PredictionResult where
  prediction : ℕ
  probability : Option ℚ
  model : String
  record_id : Option String
deriving DecidableEq

/-- The component state `handleSubmit` touches: the step pointer, the form
record, and the displayed prediction result (`result`, `None` when no result
card is shown). -/
structure FormState where
  currentStep : ℕ
  formData : FormData
  result : Option PredictionResult
deriving DecidableEq

/-- How the single `/predict` fetch of `handleSubmit` ends: the `catch` arm
(transport failure), a `!res.ok` response with its optional `data.error`
string, or a success carrying the parsed result. -/
inductive PredictOutcome where
  | transportError
  | serverError (errMsg : Option String)
  | ok (r : PredictionResult)
deriving DecidableEq

/-- Source `data.error || "Server returned an error"` — JavaScript `||` falls
through on `undefined` and on the empty string. -/
def jsOrStr (o : Option String) (dflt : String) : String :=
  match o with
  | some s => if s = "" then dflt else s
  | none => dflt

/-- One whole run of `handleSubmit` (src/unnamed/part_001, lines 129–168)
with the given fetch outcome: returns the successor state and the alert
message surfaced, if any.  When fields are missing it alerts and returns; a
run that reaches the fetch first executes `setResult(null)`, then on
transport error or `!res.ok` alerts, and on success stores the parsed
result.  `loading` is set and cleared within the run and so is not part of
the state. -/
def handleSubmitRun (st : FormState) (outcome : PredictOutcome) :
    FormState × Option String :=
  if 0 < (missingRequired st.formData).length then
    (st, some ("Please fill required fields before submitting: "
      ++ String.intercalate ", " ((missingRequired st.formData).map fieldName)))
  else
    let st1 : FormState := { st with result := none }
    match outcome with
    | .transportError =>
      (st1, some "Failed to connect to server. Make sure the backend is running.")
    | .serverError errMsg => (st1, some (jsOrStr errMsg "Server returned an error"))
    | .ok r => ({ st1 with result := some r }, none)

end PatientForm

namespace DoctorLogin

/-- Source `validate` (src/src/pages/DoctorLogin.tsx, lines 39–43): the only local
check before the request — both strings must be non-empty (a JavaScript
string is falsy exactly when empty).  Returns the validation message, or
`none` when validation passes. -/
def validate (email password : String) : Option String :=
  if email = "" then some "Please enter email or username."
  else if password = "" then some "Please enter password."
  else none

/-- What a call of the login `handleSubmit` does before any response: either
it surfaces the validation message and stops, or it issues the one
`/auth/login-file` request with body `{username: email.trim(), password}`. -/
inductive LoginAction where
  | validationError (msg : String)
  | request (username password : String)
deriving DecidableEq

/-- The pre-network part of `handleSubmit` (src/src/pages/DoctorLogin.tsx,
lines 45–64): run `validate`; on a message, set the error and return without
fetching; otherwise issue the request. -/
def loginSubmit (email password : String) : LoginAction :=
  match validate email password with
  | some m => .validationError m
  | none => .request email.trim password

/-- Whether a login action issues the network call. -/
def issuesRequest : LoginAction → Bool
  | .validationError _ => false
  | .request _ _ => true

/-- A browser storage write: `localStorage.setItem` or
`sessionStorage.setItem`. -/
inductive StoreOp where
  | localSet (key value : String)
  | sessionSet (key value : String)
deriving DecidableEq

/-- A successful (HTTP-ok) response body, as the handler reads it:
`data.token`, `data.user` (opaque, stored stringified), `data.ok`
(absent ↦ `false`), `data.username`, `data.next`. -/
structure LoginResponse where
  token : Option String
  user : Option String
  ok : Bool
  username : Option String
  next : Option String
deriving DecidableEq

/-- The effect of handling one ok response. -/
structure LoginOutcome where
  stores : List StoreOp
  nav : Option String
  errMsg : Option String
deriving DecidableEq

/-- JavaScript truthiness of an optional string: present and non-empty. -/
def jsTruthyStr (o : Option String) : Bool :=
  match o with
  | some s => s ≠ ""
  | none => false

/-- JavaScript `o || dflt` on an optional string. -/
def jsOrStr (o : Option String) (dflt : String) : String :=
  match o with
  | some s => if s = "" then dflt else s
  | none => dflt

/-- The success-branch of `handleSubmit` (src/src/pages/DoctorLogin.tsx,
lines 77–101), reached when `res.ok`:

* token shape (`data.token` truthy): store the token in local or session
  storage by `remember`, store `authUser` when `data.user` is present, and
  navigate to `/doctor/dashboard`;
* flag shape (`data.ok || data.username`): store
  `authUser = data.username || email.trim()` (the `JSON.stringify`
  wrapper is abstracted away), store the `authRemember` flag, and navigate
  to `data.next || "/doctor/dashboard"`;
* otherwise surface the unknown-shape error.

A `data.token` of `some ""` is falsy in the source and is modelled so. -/
def handleLoginSuccess (remember : Bool) (email : String)
    (data : LoginResponse) : LoginOutcome :=
  if jsTruthyStr data.token then
    { stores :=
        [if remember then StoreOp.localSet "authToken" (data.token.getD "")
         else StoreOp.sessionSet "authToken" (data.token.getD "")]
        ++ (match data.user with
            | some u => [StoreOp.localSet "authUser" u]
            | none => [])
      nav := some "/doctor/dashboard"
      errMsg := none }
  else if data.ok || jsTruthyStr data.username then
    { stores :=
        [StoreOp.localSet "authUser" (jsOrStr data.username email.trim)]
        ++ [if remember then StoreOp.localSet "authRemember" "1"
            else StoreOp.sessionSet "authRemember" "1"]
      nav := some (jsOrStr data.next "/doctor/dashboard")
      errMsg := none }
  else
    { stores := []
      nav := none
      errMsg := some "Login succeeded but response shape unexpected. Check backend." }

end DoctorLogin

namespace DoctorDashboard

/-- The numeric entries of a stored record's `input` map that the dashboard
reads (`inp.chol`, `inp.trestbps`, `inp.oldpeak` in `aiSuggestion`;
`age`, `cp` in the table).  An entry absent from the map is `none`. -/
structure RecordInput where
  age : Option ℚ
  cp : Option ℚ
  chol : Option ℚ
  trestbps : Option ℚ
  oldpeak : Option ℚ
deriving DecidableEq

/-- Source `RecordType` (src/src/pages/DoctorDashboard.tsx, lines 16–23). -/
structure RecordType where
  _id : String
  input : RecordInput
  prediction : ℕ
  probability : Option ℚ
  model : String
  timestamp : Option String
deriving DecidableEq

/-- A JavaScript `x >= t` comparison where `x` may be absent: `undefined >= t`
is `false` (NaN comparison) and `null >= t` is `0 >= t`, also `false` for the
positive thresholds used here, so both collapse to `none ↦ false`. -/
def optGE (o : Option ℚ) (t : ℚ) : Bool :=
  match o with
  | some v => decide (t ≤ v)
  | none => false

/-- The canned cholesterol sentence (line 70). -/
def cholMsg : String := "High cholesterol — suggest lipid profile & diet change."

/-- The canned blood-pressure sentence (line 71). -/
def bpMsg : String := "High BP — consider antihypertensive review."

/-- The canned ST-depression sentence (line 72). -/
def stMsg : String := "Significant ST depression — cardiology consultation recommended."

/-- The canned model-probability sentence (line 73). -/
def probMsg : String := "High model probability — prioritize follow-up soon."

/-- The `sug` array built inside `aiSuggestion` (lines 68–73), in source
order: cholesterol ≥ 240, resting blood pressure ≥ 140, ST depression ≥ 2.0
(all read from `rec.input`), then model probability ≥ 0.8 (read from
`rec.probability`). -/
def ruleSentences (rec : RecordType) : List String :=
  (if optGE rec.input.chol 240 then [cholMsg] else [])
  ++ (if optGE rec.input.trestbps 140 then [bpMsg] else [])
  ++ (if optGE rec.input.oldpeak 2 then [stMsg] else [])
  ++ (if optGE rec.probability (4/5) then [probMsg] else [])

/-- Source `aiSuggestion` (src/src/pages/DoctorDashboard.tsx, lines 61–76): empty
when no record is selected or the selected id matches no fetched record;
otherwise `sug.slice(0, 4).join(" ")` for the record found by `_id`. -/
def aiSuggestion (selectedId : String) (records : List RecordType) : String :=
  if selectedId = "" then ""
  else
    match records.find? (fun x => x._id == selectedId) with
    | none => ""
    | some rec => String.intercalate " " ((ruleSentences rec).take 4)

/-- JavaScript `String.prototype.trim()`: strip leading and trailing
whitespace (spelled out over the character list so that it evaluates). -/
def jsTrim (s : String) : String :=
  String.mk (((s.data.dropWhile Char.isWhitespace).reverse.dropWhile
    Char.isWhitespace).reverse)

/-- The dashboard state `saveNote` can read or write.  `saving` is set and
cleared within one run and is omitted. -/
structure DashState where
  records : List RecordType
  selectedId : String
  notesText : String
  message : Option String
deriving DecidableEq

/-- How the note-saving fetch ends: success, a `!res.ok` response, or a
transport error. -/
inductive SaveOutcome where
  | ok | httpError | networkError
deriving DecidableEq

/-- One whole run of `saveNote` (src/src/pages/DoctorDashboard.tsx,
lines 78–109) with the given fetch outcome.  The two guards surface a
message without fetching; otherwise the outcome decides which message is
set.  No other state component is written. -/
def saveNote (st : DashState) (outcome : SaveOutcome) : DashState :=
  if st.selectedId = "" then { st with message := some "Select a record first." }
  else if jsTrim st.notesText = "" then { st with message := some "Write a note first." }
  else
    match outcome with
    | .ok => { st with message := some "Note saved successfully" }
    | .httpError => { st with message := some "Failed to save note" }
    | .networkError => { st with message := some "Network error while saving note." }

end DoctorDashboard

section TestInputs

open PatientForm DoctorLogin DoctorDashboard

/-- A wholly empty form record (`initialFormData`). -/
def fdEmpty : FormData :=
  ⟨none, none, none, none, none, none, none, none, none, none, none, none, none, none⟩

/-- A form record with all thirteen required fields set (label left empty). -/
def fdFull : FormData :=
  ⟨some 63, some 1, some 3, some 145, some 233, some 1, some 0,
   some 150, some 0, some (23/10), some 0, some 0, some 1, none⟩

/-- A sample prediction result as displayed after a successful submission. -/
def resultPrev : PredictionResult :=
  ⟨1, some (9/10), "RandomForest", some "id1"⟩

/-- A form state that already displays a prediction result. -/
def stPrev : FormState := ⟨6, fdFull, some resultPrev⟩

/-- A token-bearing login response. -/
def dataTok : LoginResponse := ⟨some "tok123", some "u1", false, none, none⟩

/-- The flag-bearing login response of the spec's example, with no `next`. -/
def dataFlag : LoginResponse := ⟨none, none, true, some "dr_raj", none⟩

/-- A flag-bearing login response carrying a redirect target. -/
def dataNext : LoginResponse := ⟨none, none, true, some "dr_raj", some "/x"⟩

/-- A stored record that triggers all four advisory thresholds. -/
def recAll : RecordType :=
  { _id := "r1"
    input := { age := some 63, cp := some 3, chol := some 250,
               trestbps := some 145, oldpeak := some (23/10) }
    prediction := 1
    probability := some (9/10)
    model := "RandomForest"
    timestamp := none }

/-- Record `recAll` with the model probability absent (`null`). -/
def recNoProb : RecordType := { recAll with probability := none }

/-- A dashboard state with a record selected and a note typed. -/
def dashSt : DashState := ⟨[recAll], "r1", "check bp", none⟩

end TestInputs

namespace PatientForm

/-- C1: for every assignment of the thirteen required clinical fields, the
derived `missingRequired` list holds exactly the required fields that are
empty; `handleSubmit` issues the network call iff that list is empty, and
when it is non-empty it only surfaces the alert naming the missing fields
(no request). -/
theorem missingRequired_submit_spec (fd : FormData) :
    (∀ f : Field, f ∈ missingRequired fd ↔ f ∈ requiredFields ∧ getField fd f = none)
    ∧ (issuesRequest (handleSubmit fd) = true ↔ missingRequired fd = [])
    ∧ (missingRequired fd ≠ [] →
        handleSubmit fd = SubmitAction.alertMissing
          ("Please fill required fields before submitting: "
            ++ String.intercalate ", " ((missingRequired fd).map fieldName))) := by
  refine ⟨fun f => ?_, ?_, fun hne => ?_⟩
  · simp [missingRequired, List.mem_filter, Option.isNone_iff_eq_none]
  · cases h : missingRequired fd with
    | nil => simp [handleSubmit, h, issuesRequest]
    | cons a l => simp [handleSubmit, h, issuesRequest]
  · have hpos : 0 < (missingRequired fd).length := List.length_pos.mpr hne
    simp [handleSubmit, hpos]

/-- Witness for C1 at the empty form: all thirteen fields are missing and the
submit handler alerts instead of issuing the request. -/
theorem missingRequired_submit_spec_wit :
    missingRequired fdEmpty ≠ []
    ∧ handleSubmit fdEmpty = SubmitAction.alertMissing
        ("Please fill required fields before submitting: "
          ++ String.intercalate ", " ((missingRequired fdEmpty).map fieldName)) :=
  ⟨by decide, (missingRequired_submit_spec fdEmpty).2.2 (by decide)⟩

theorem nextStep_bounds {s : ℕ} (h1 : 1 ≤ s) (h2 : s ≤ totalSteps) :
    1 ≤ nextStep s ∧ nextStep s ≤ totalSteps := by
  unfold nextStep; split <;> omega

theorem prevStep_bounds {s : ℕ} (h1 : 1 ≤ s) (h2 : s ≤ totalSteps) :
    1 ≤ prevStep s ∧ prevStep s ≤ totalSteps := by
  unfold prevStep; split <;> omega

theorem applyOps_bounds (ops : List StepOp) :
    ∀ s : ℕ, 1 ≤ s → s ≤ totalSteps →
      1 ≤ applyOps ops s ∧ applyOps ops s ≤ totalSteps := by
  induction ops with
  | nil => intro s h1 h2; exact ⟨h1, h2⟩
  | cons op rest ih =>
    intro s h1 h2
    cases op with
    | next =>
      have h := nextStep_bounds h1 h2
      exact ih (nextStep s) h.1 h.2
    | prev =>
      have h := prevStep_bounds h1 h2
      exact ih (prevStep s) h.1 h.2

/-- C3: from the initial step 1, every sequence of advance/retreat clicks
keeps the current step within [1, 6]; advancing at 6 and retreating at 1 are
no-ops, advancing below 6 adds one, retreating above 1 subtracts one. -/
theorem step_navigation_spec (ops : List StepOp) :
    (1 ≤ applyOps ops 1 ∧ applyOps ops 1 ≤ 6)
    ∧ nextStep 6 = 6
    ∧ prevStep 1 = 1
    ∧ (∀ s : ℕ, s < 6 → nextStep s = s + 1)
    ∧ (∀ s : ℕ, 1 < s → prevStep s = s - 1) := by
  refine ⟨applyOps_bounds ops 1 le_rfl (by decide), by decide, by decide,
    fun s hs => ?_, fun s hs => ?_⟩
  · simp [nextStep, totalSteps, hs]
  · simp [prevStep, hs]

/-- Witness for C3: the boundary-free step equations at step 3, and the
range invariant after a concrete click sequence. -/
theorem step_navigation_spec_wit :
    nextStep 3 = 4 ∧ prevStep 3 = 2
    ∧ (1 ≤ applyOps [StepOp.next, StepOp.prev, StepOp.prev] 1
       ∧ applyOps [StepOp.next, StepOp.prev, StepOp.prev] 1 ≤ 6) :=
  ⟨(step_navigation_spec []).2.2.2.1 3 (by decide),
   (step_navigation_spec []).2.2.2.2 3 (by decide),
   (step_navigation_spec [StepOp.next, StepOp.prev, StepOp.prev]).1⟩

/-- C7: when all thirteen required fields are set, `handleSubmit` issues the
request whose payload lists exactly the thirteen clinical fields in source
order, each carrying its (numeric) value; the optional `target` label is not
among the payload keys. -/
theorem submit_payload_spec (fd : FormData)
    (hcomplete : missingRequired fd = []) :
    handleSubmit fd = SubmitAction.request (payloadOf fd)
    ∧ (payloadOf fd).map Prod.fst = requiredFields
    ∧ requiredFields.length = 13
    ∧ Field.target ∉ (payloadOf fd).map Prod.fst
    ∧ (∀ p ∈ payloadOf fd, (p.2).isSome = true) := by
  have hkeys : (payloadOf fd).map Prod.fst = requiredFields := by
    rw [payloadOf, List.map_map,
      show (Prod.fst ∘ fun f : Field => (f, getField fd f)) = id from rfl,
      List.map_id]
  have hset : ∀ f ∈ requiredFields, ¬ ((getField fd f).isNone = true) := by
    rw [missingRequired, List.filter_eq_nil_iff] at hcomplete
    exact hcomplete
  refine ⟨by simp [handleSubmit, hcomplete], hkeys, by decide,
    by rw [hkeys]; decide, fun p hp => ?_⟩
  obtain ⟨f, hf, rfl⟩ := List.mem_map.mp hp
  have h := hset f hf
  cases hval : getField fd f with
  | none => exact absurd (by simp [hval]) h
  | some v => simp [hval]

/-- Witness for C7 at a fully filled form. -/
theorem submit_payload_spec_wit :
    missingRequired fdFull = []
    ∧ handleSubmit fdFull = SubmitAction.request (payloadOf fdFull)
    ∧ (payloadOf fdFull).map Prod.fst = requiredFields :=
  ⟨by decide, (submit_payload_spec fdFull (by decide)).1,
   (submit_payload_spec fdFull (by decide)).2.1⟩

/-- C6 counterexample: starting from a state that already displays a
prediction result, a submission that fails in transport leaves `result`
cleared (`setResult(null)` runs before the fetch), so the previously
displayed prediction result is not left unchanged. -/
theorem submit_failure_clears_result :
    (handleSubmitRun stPrev PredictOutcome.transportError).1.result
      ≠ stPrev.result := by
  rw [show (handleSubmitRun stPrev PredictOutcome.transportError).1.result
        = none from rfl,
      show stPrev.result = some resultPrev from rfl]
  simp

/-- C6 as amended: a failed submission (transport failure or non-success
response) surfaces a message and leaves the thirteen field values and the
current step unchanged, with no retry (the run issues one request); but the
previously displayed prediction result is cleared at submission start rather
than preserved. -/
theorem submit_failure_frame (st : FormState) (outcome : PredictOutcome)
    (hcomplete : missingRequired st.formData = [])
    (hfail : ∀ r, outcome ≠ PredictOutcome.ok r) :
    (handleSubmitRun st outcome).1.formData = st.formData
    ∧ (handleSubmitRun st outcome).1.currentStep = st.currentStep
    ∧ (handleSubmitRun st outcome).1.result = none
    ∧ ((handleSubmitRun st outcome).2).isSome = true := by
  cases outcome with
  | transportError => simp [handleSubmitRun, hcomplete]
  | serverError errMsg => simp [handleSubmitRun, hcomplete]
  | ok r => exact absurd rfl (hfail r)

/-- Witness for the amended C6 at a concrete filled state and a transport
failure. -/
theorem submit_failure_frame_wit :
    missingRequired stPrev.formData = []
    ∧ (handleSubmitRun stPrev PredictOutcome.transportError).1.formData
        = stPrev.formData
    ∧ (handleSubmitRun stPrev PredictOutcome.transportError).1.result = none :=
  ⟨by decide,
   (submit_failure_frame stPrev PredictOutcome.transportError (by decide)
     (fun r h => nomatch h)).1,
   (submit_failure_frame stPrev PredictOutcome.transportError (by decide)
     (fun r h => nomatch h)).2.2.1⟩

end PatientForm

namespace DoctorLogin

/-- C4: the login submission fetches iff both credential strings are
non-empty — the only local validation; an empty password (or an empty
username/email) only surfaces a validation message and issues no network
call. -/
theorem login_validation_spec (email password : String) :
    (issuesRequest (loginSubmit email password) = true
      ↔ (email ≠ "" ∧ password ≠ ""))
    ∧ (password = "" →
        ∃ m, loginSubmit email password = LoginAction.validationError m)
    ∧ (email = "" →
        ∃ m, loginSubmit email password = LoginAction.validationError m)
    ∧ (email ≠ "" → password ≠ "" →
        loginSubmit email password = LoginAction.request email.trim password) := by
  by_cases he : email = "" <;> by_cases hp : password = "" <;>
    simp [loginSubmit, validate, issuesRequest, he, hp]

/-- Witness for C4: empty password and empty username each block the fetch
with a message; full credentials issue the request. -/
theorem login_validation_spec_wit :
    (∃ m, loginSubmit "dr_raj" "" = LoginAction.validationError m)
    ∧ (∃ m, loginSubmit "" "pw" = LoginAction.validationError m)
    ∧ loginSubmit "dr_raj" "pw" = LoginAction.request ("dr_raj".trim) "pw" :=
  ⟨(login_validation_spec "dr_raj" "").2.1 rfl,
   (login_validation_spec "" "pw").2.2.1 rfl,
   (login_validation_spec "dr_raj" "pw").2.2.2 (by decide) (by decide)⟩

/-- C5: a token-bearing ok response stores the token (in local or session
storage by `remember`) and navigates to the dashboard; the flag-bearing
response `{ok: true, username: "dr_raj"}` without `next` stores the username
and navigates to `/doctor/dashboard`; when a non-empty `next` is supplied,
navigation goes there instead. -/
theorem login_success_spec (remember : Bool) (email : String)
    (data : LoginResponse) :
    (∀ t : String, data.token = some t → t ≠ "" →
      (handleLoginSuccess remember email data).nav = some "/doctor/dashboard"
      ∧ (if remember then StoreOp.localSet "authToken" t
         else StoreOp.sessionSet "authToken" t)
          ∈ (handleLoginSuccess remember email data).stores)
    ∧ (data.token = none → data.ok = true → data.username = some "dr_raj" →
        data.next = none →
        (handleLoginSuccess remember email data).nav = some "/doctor/dashboard"
        ∧ StoreOp.localSet "authUser" "dr_raj"
            ∈ (handleLoginSuccess remember email data).stores
        ∧ (handleLoginSuccess remember email data).errMsg = none)
    ∧ (∀ n : String, data.token = none →
        (data.ok = true ∨ jsTruthyStr data.username = true) →
        data.next = some n → n ≠ "" →
        (handleLoginSuccess remember email data).nav = some n) := by
  refine ⟨fun t ht htne => ?_, fun ht hok hu hn => ?_, fun n ht hflag hn hne => ?_⟩
  · unfold handleLoginSuccess
    rw [if_pos (show jsTruthyStr data.token = true by simp [jsTruthyStr, ht, htne])]
    refine ⟨rfl, ?_⟩
    simp [ht]
  · unfold handleLoginSuccess
    rw [if_neg (show ¬ jsTruthyStr data.token = true by simp [jsTruthyStr, ht]),
      if_pos (show (data.ok || jsTruthyStr data.username) = true by simp [hok])]
    simp [jsOrStr, hu, hn]
  · unfold handleLoginSuccess
    rw [if_neg (show ¬ jsTruthyStr data.token = true by simp [jsTruthyStr, ht]),
      if_pos (show (data.ok || jsTruthyStr data.username) = true by
        rcases hflag with h | h <;> simp [h])]
    simp [jsOrStr, hn, hne]

/-- Witness for C5 at concrete responses: a token response, the spec's flag
response, and a flag response with a redirect target. -/
theorem login_success_spec_wit :
    (handleLoginSuccess true "e" dataTok).nav = some "/doctor/dashboard"
    ∧ (handleLoginSuccess true "e" dataFlag).nav = some "/doctor/dashboard"
    ∧ StoreOp.localSet "authUser" "dr_raj"
        ∈ (handleLoginSuccess true "e" dataFlag).stores
    ∧ (handleLoginSuccess true "e" dataNext).nav = some "/x" :=
  ⟨((login_success_spec true "e" dataTok).1 "tok123" rfl (by decide)).1,
   ((login_success_spec true "e" dataFlag).2.1 rfl rfl rfl rfl).1,
   ((login_success_spec true "e" dataFlag).2.1 rfl rfl rfl rfl).2.1,
   (login_success_spec true "e" dataNext).2.2 "/x" rfl (Or.inl rfl) rfl
     (by decide)⟩

end DoctorLogin

namespace DoctorDashboard

theorem ruleSentences_length_le (rec : RecordType) :
    (ruleSentences rec).length ≤ 4 := by
  unfold ruleSentences
  split_ifs <;> simp

theorem aiSuggestion_found (sid : String) (records : List RecordType)
    (rec : RecordType) (hsid : sid ≠ "")
    (hfind : records.find? (fun x => x._id == sid) = some rec) :
    aiSuggestion sid records = String.intercalate " " (ruleSentences rec) := by
  unfold aiSuggestion
  rw [if_neg hsid, hfind]
  exact congrArg (String.intercalate " ")
    (List.take_of_length_le (ruleSentences_length_le rec))

/-- C2: for a selected record that is found in the list, the advisory string
is the space-join, in fixed rule order, of exactly the canned sentences whose
thresholds hold (cholesterol ≥ 240, resting BP ≥ 140, ST depression ≥ 2.0,
model probability ≥ 0.8) — so it holds at most four sentences, is determined
by the record's fields alone, and contains all four sentences when all four
thresholds are triggered. -/
theorem aiSuggestion_spec (sid : String) (records : List RecordType)
    (rec : RecordType) (hsid : sid ≠ "")
    (hfind : records.find? (fun x => x._id == sid) = some rec) :
    aiSuggestion sid records = String.intercalate " " (ruleSentences rec)
    ∧ (ruleSentences rec).length ≤ 4
    ∧ (cholMsg ∈ ruleSentences rec ↔ optGE rec.input.chol 240 = true)
    ∧ (bpMsg ∈ ruleSentences rec ↔ optGE rec.input.trestbps 140 = true)
    ∧ (stMsg ∈ ruleSentences rec ↔ optGE rec.input.oldpeak 2 = true)
    ∧ (probMsg ∈ ruleSentences rec ↔ optGE rec.probability (4/5) = true)
    ∧ (optGE rec.input.chol 240 = true → optGE rec.input.trestbps 140 = true →
        optGE rec.input.oldpeak 2 = true → optGE rec.probability (4/5) = true →
        ruleSentences rec = [cholMsg, bpMsg, stMsg, probMsg]) := by
  refine ⟨aiSuggestion_found sid records rec hsid hfind,
    ruleSentences_length_le rec, ?_, ?_, ?_, ?_, ?_⟩ <;>
    (cases h1 : optGE rec.input.chol 240 <;>
     cases h2 : optGE rec.input.trestbps 140 <;>
     cases h3 : optGE rec.input.oldpeak 2 <;>
     cases h4 : optGE rec.probability (4/5) <;>
     simp [ruleSentences, h1, h2, h3, h4, cholMsg, bpMsg, stMsg, probMsg])

/-- Witness for C2 at a record triggering all four thresholds. -/
theorem aiSuggestion_spec_wit :
    aiSuggestion "r1" [recAll] = String.intercalate " " (ruleSentences recAll)
    ∧ ruleSentences recAll = [cholMsg, bpMsg, stMsg, probMsg] := by
  have h := aiSuggestion_spec "r1" [recAll] recAll (by decide) rfl
  exact ⟨h.1, h.2.2.2.2.2.2 (by norm_num [recAll, optGE])
    (by norm_num [recAll, optGE]) (by norm_num [recAll, optGE])
    (by norm_num [recAll, optGE])⟩

/-- C9: when the selected record's model probability is absent (`null`), the
probability rule is simply not satisfied — the advisory never holds the
high-model-probability sentence and the computation does not fail. -/
theorem aiSuggestion_null_probability (sid : String)
    (records : List RecordType) (rec : RecordType) (hsid : sid ≠ "")
    (hfind : records.find? (fun x => x._id == sid) = some rec)
    (hp : rec.probability = none) :
    probMsg ∉ ruleSentences rec
    ∧ aiSuggestion sid records = String.intercalate " " (ruleSentences rec) := by
  refine ⟨?_, aiSuggestion_found sid records rec hsid hfind⟩
  have h4 : optGE rec.probability (4/5) = false := by simp [optGE, hp]
  cases h1 : optGE rec.input.chol 240 <;>
    cases h2 : optGE rec.input.trestbps 140 <;>
    cases h3 : optGE rec.input.oldpeak 2 <;>
    simp [ruleSentences, h1, h2, h3, h4, cholMsg, bpMsg, stMsg, probMsg]

/-- Witness for C9 at a record with `probability = null` that triggers the
other three rules. -/
theorem aiSuggestion_null_probability_wit :
    probMsg ∉ ruleSentences recNoProb
    ∧ aiSuggestion "r1" [recNoProb]
        = String.intercalate " " (ruleSentences recNoProb) :=
  ⟨(aiSuggestion_null_probability "r1" [recNoProb] recNoProb (by decide)
      rfl rfl).1,
   (aiSuggestion_null_probability "r1" [recNoProb] recNoProb (by decide)
      rfl rfl).2⟩

/-- C10: with no record selected (empty identifier) or with a selected
identifier matching no fetched record, the advisory string is empty. -/
theorem aiSuggestion_no_match (sid : String) (records : List RecordType)
    (h : sid = "" ∨ records.find? (fun x => x._id == sid) = none) :
    aiSuggestion sid records = "" := by
  unfold aiSuggestion
  rcases h with h | h
  · rw [if_pos h]
  · by_cases hs : sid = ""
    · rw [if_pos hs]
    · rw [if_neg hs, h]

/-- Witness for C10: the empty selection and an id absent from the list. -/
theorem aiSuggestion_no_match_wit :
    aiSuggestion "" [recAll] = "" ∧ aiSuggestion "zzz" [recAll] = "" :=
  ⟨aiSuggestion_no_match "" [recAll] (Or.inl rfl),
   aiSuggestion_no_match "zzz" [recAll] (Or.inr rfl)⟩

/-- C8: a `saveNote` run never changes the fetched record list (nor the
selection or the note text); when a record is selected and a note is typed,
the outcome decides the surfaced message — a confirmation on success, a
failure message otherwise. -/
theorem saveNote_frame (st : DashState) (outcome : SaveOutcome) :
    (saveNote st outcome).records = st.records
    ∧ (saveNote st outcome).selectedId = st.selectedId
    ∧ (saveNote st outcome).notesText = st.notesText
    ∧ (st.selectedId ≠ "" → jsTrim st.notesText ≠ "" →
        (saveNote st outcome).message = some (match outcome with
          | .ok => "Note saved successfully"
          | .httpError => "Failed to save note"
          | .networkError => "Network error while saving note.")) := by
  unfold saveNote
  split_ifs with h1 h2 <;> cases outcome <;> simp_all

/-- Witness for C8 at a state with a selection and a typed note, on a
transport failure. -/
theorem saveNote_frame_wit :
    (saveNote dashSt SaveOutcome.networkError).records = dashSt.records
    ∧ (saveNote dashSt SaveOutcome.networkError).message
        = some "Network error while saving note." :=
  ⟨(saveNote_frame dashSt SaveOutcome.networkError).1,
   (saveNote_frame dashSt SaveOutcome.networkError).2.2.2
     (by decide) (by decide)⟩

end DoctorDashboard
